import Mathlib

/-!
Verification development for the AquaponicsWeb repository.

The repository is a Flask application (`main_app.py`, `waitress_app.py`) with a
visitor-geolocation module (`geomap_module/helpers.py`, `models.py`, `routes.py`).
This file gives a shallow embedding of the parts of the code that the verified
properties are about: the relay directory (`get_media_relay`, `cleanup_relays`,
`waitress_info`), the `stream_proxy` streaming consumer (`generate`), the
visitor-tracking database path (`track_visitor`), and the geolocation guard
(`_is_private`, `get_location`).

Python strings are embedded as `List Char`; machine floats that only ever hold
small decimal constants (timeouts, delays) are embedded as exact rationals.
Network and database effects are embedded as explicit oracles / state passing.
-/

namespace Aquaponics

/-- A byte chunk (one MJPEG frame part). Payloads are opaque byte strings,
embedded as lists of characters. -/
abbrev Chunk := List Char

/- ------------------------------------------------------------------------ -/
/- geomap_module/helpers.py : `_is_private` and `get_location`              -/
/- ------------------------------------------------------------------------ -/

/-- Python `str.isspace`-style whitespace test used by `str.strip()`. -/
def pyIsSpace (c : Char) : Bool := c.isWhitespace

/-- Python `str.lower` on one character (ASCII-faithful for the data at hand). -/
def pyLowerChar (c : Char) : Char := c.toLower

/-- Python `str.lower`. -/
def pyLower (s : List Char) : List Char := s.map pyLowerChar

/-- Python `str.strip()`: drop leading and trailing whitespace. -/
def pyStrip (s : List Char) : List Char :=
  ((s.dropWhile pyIsSpace).reverse.dropWhile pyIsSpace).reverse

/-- Python `s.startswith(p)`. -/
def pyStartsWith : List Char → List Char → Bool
  | _, [] => true
  | [], _ :: _ => false
  | c :: s, d :: p => c == d && pyStartsWith s p

/-- helpers.py line 27: `PRIVATE_PREFIXES = ("10.", "172.", "192.168.", "127.", "169.254.")`. -/
def privatePrefixList : List (List Char) :=
  ["10.".data, "172.".data, "192.168.".data, "127.".data, "169.254.".data]

/-- helpers.py `_is_private(ip)`: empty string, `"localhost"` (after
strip+lower), or any member of `PRIVATE_PREFIXES` as a plain string prefix. -/
def is_private (ip : List Char) : Bool :=
  if ip = [] then true
  else
    let s := pyLower (pyStrip ip)
    if s = "localhost".data then true
    else privatePrefixList.any (fun p => pyStartsWith s p)

/-- The network/database lookup tiers of `get_location`, embedded as oracles:
`geoipLocal` is the local GeoLite2 database, `apiKey` the ipgeolocation.io
API key, `ipgeo` and `ipapi` the two HTTP services, `reverseDns` the
reverse-DNS fallback. Each returns the location dict it would produce, or
`none` on failure. -/
structure GeoEnv (α : Type) where
  geoipLocal : List Char → Option α
  apiKey : Option (List Char)
  ipgeo : List Char → Option α
  ipapi : List Char → Option α
  reverseDns : List Char → Option α

/-- helpers.py `get_location(ip)`: return `None` for private IPs, otherwise
try the four lookup tiers in priority order. -/
def get_location {α : Type} (env : GeoEnv α) (ip : List Char) : Option α :=
  if is_private ip then none
  else
    match env.geoipLocal ip with
    | some r => some r
    | none =>
      match (if env.apiKey.isSome then env.ipgeo ip else none) with
      | some r => some r
      | none =>
        match env.ipapi ip with
        | some r => some r
        | none => env.reverseDns ip

/- Helper lemmas about the string operations. -/

theorem pyStartsWith_iff (s p : List Char) :
    pyStartsWith s p = true ↔ ∃ r, s = p ++ r := by
  induction p generalizing s with
  | nil =>
    simp [pyStartsWith]
  | cons d p ih =>
    cases s with
    | nil =>
      simp [pyStartsWith]
    | cons c s =>
      simp only [pyStartsWith, Bool.and_eq_true, beq_iff_eq, ih, List.cons_append,
        List.cons.injEq]
      constructor
      · rintro ⟨rfl, r, rfl⟩
        exact ⟨r, rfl, rfl⟩
      · rintro ⟨r, rfl, rfl⟩
        exact ⟨rfl, r, rfl⟩

theorem dropWhile_append_eq (f : Char → Bool) (l₁ l₂ : List Char) :
    List.dropWhile f (l₁ ++ l₂) =
      if List.dropWhile f l₁ = [] then List.dropWhile f l₂
      else List.dropWhile f l₁ ++ l₂ := by
  induction l₁ with
  | nil => simp [List.dropWhile]
  | cons c t ih =>
    by_cases hc : f c = true
    · simpa [List.dropWhile, hc] using ih
    · simp [List.dropWhile, hc]

theorem dropWhile_eq_self_of_all_false (f : Char → Bool) (l : List Char)
    (h : ∀ c ∈ l, f c = false) : List.dropWhile f l = l := by
  induction l with
  | nil => rfl
  | cons c t ih =>
    have hc : f c = false := h c (List.mem_cons_self c t)
    have ht : List.dropWhile f t = t := ih fun d hd => h d (List.mem_cons_of_mem c hd)
    simp [List.dropWhile, hc, ht]

theorem map_eq_self_of_fixed (f : Char → Char) (l : List Char)
    (h : ∀ c ∈ l, f c = c) : l.map f = l := by
  induction l with
  | nil => rfl
  | cons c t ih =>
    simp only [List.map_cons, h c (List.mem_cons_self c t), List.cons.injEq, true_and]
    exact ih fun d hd => h d (List.mem_cons_of_mem c hd)

theorem pyStrip_keeps_lead (p s : List Char) (hne : p ≠ [])
    (hsp : ∀ c ∈ p, pyIsSpace c = false) (h : ∃ r, s = p ++ r) :
    ∃ r, pyStrip s = p ++ r := by
  obtain ⟨r, rfl⟩ := h
  obtain ⟨c, t, rfl⟩ : ∃ c t, p = c :: t := by
    cases p with
    | nil => exact absurd rfl hne
    | cons c t => exact ⟨c, t, rfl⟩
  have hc : pyIsSpace c = false := hsp c (List.mem_cons_self c t)
  unfold pyStrip
  have h1 : List.dropWhile pyIsSpace ((c :: t) ++ r) = (c :: t) ++ r := by
    simp [List.dropWhile, hc]
  rw [h1, List.reverse_append, dropWhile_append_eq]
  by_cases h2 : List.dropWhile pyIsSpace r.reverse = []
  · rw [if_pos h2, dropWhile_eq_self_of_all_false]
    · exact ⟨[], by simp⟩
    · intro d hd
      exact hsp d (List.mem_reverse.mp hd)
  · rw [if_neg h2, List.reverse_append, List.reverse_reverse]
    exact ⟨(List.dropWhile pyIsSpace r.reverse).reverse, rfl⟩

theorem pyLower_keeps_lead (p s : List Char)
    (hlw : ∀ c ∈ p, pyLowerChar c = c) (h : ∃ r, s = p ++ r) :
    ∃ r, pyLower s = p ++ r := by
  obtain ⟨r, rfl⟩ := h
  refine ⟨pyLower r, ?_⟩
  unfold pyLower
  rw [List.map_append, map_eq_self_of_fixed _ _ hlw]

theorem is_private_of_listed_lead (p ip : List Char)
    (hmem : p ∈ privatePrefixList) (h : pyStartsWith ip p = true) :
    is_private ip = true := by
  have hmem2 : p = "10.".data ∨ p = "172.".data ∨ p = "192.168.".data ∨
      p = "127.".data ∨ p = "169.254.".data := by
    simpa [privatePrefixList] using hmem
  have hfacts : p ≠ [] ∧ (∀ c ∈ p, pyIsSpace c = false) ∧ (∀ c ∈ p, pyLowerChar c = c) := by
    rcases hmem2 with h1 | h1 | h1 | h1 | h1 <;> subst h1 <;>
      exact ⟨by decide, by decide, by decide⟩
  obtain ⟨hne, hsp, hlw⟩ := hfacts
  have hstart : ∃ r, ip = p ++ r := (pyStartsWith_iff ip p).mp h
  have hlead : ∃ r, pyLower (pyStrip ip) = p ++ r :=
    pyLower_keeps_lead p _ hlw (pyStrip_keeps_lead p ip hne hsp hstart)
  have hipne : ¬(ip = []) := by
    obtain ⟨r, rfl⟩ := hstart
    cases p with
    | nil => exact absurd rfl hne
    | cons c t => simp
  unfold is_private
  rw [if_neg hipne]
  by_cases hloc : pyLower (pyStrip ip) = "localhost".data
  · rw [if_pos hloc]
  · rw [if_neg hloc]
    rw [List.any_eq_true]
    exact ⟨p, hmem, (pyStartsWith_iff _ p).mpr hlead⟩

/- ------------------------------------------------------------------------ -/
/- main_app.py : relay directory (`_media_relays`, `get_media_relay`,       -/
/- `cleanup_relays`, `waitress_info`)                                       -/
/- ------------------------------------------------------------------------ -/

/-- main_app.py lines 227-231: streaming tuning constants. The float-valued
ones are embedded as exact rationals. -/
def WIRELESS_CACHE_DURATION : ℚ := 15
def WIRELESS_SERVE_DELAY : ℚ := 2
def WARMUP_TIMEOUT : ℚ := 15
def MAX_CONSECUTIVE_TIMEOUTS : Nat := 10
def QUEUE_TIMEOUT : ℚ := 15

/-- The `CachedMediaRelay` object from `cached_relay.py`. That file is not part
of the repository snapshot; the fields visible through `main_app.py` are
`stream_url`, `cache_duration`, `serve_delay`, `clients`, `last_frame`,
`running`, and `lock`. Modelled from the spec: `start()` transitions the relay
to Running (`started`/`running` true); subscriber queues are opaque handles
(`clients`); `last_frame` is the most recent frame or `none`. `rid` gives each
constructed instance a distinct identity, standing for Python object identity. -/
structure CachedMediaRelay where
  rid : Nat
  stream_url : String
  cache_duration : ℚ
  serve_delay : ℚ
  started : Bool
  clients : List Nat
  last_frame : Option Chunk
  running : Bool
deriving DecidableEq

/-- The module-level state of main_app.py: the `_media_relays` dict (embedded
as an association list in insertion order, as a Python dict iterates) together
with a freshness counter supplying object identities. All operations on it in
the source run under the single `_media_lock`, so they are embedded as atomic
state transitions. -/
structure RelayDir where
  entries : List (String × CachedMediaRelay)
  nextId : Nat
deriving DecidableEq

/-- Python `dict.get` on the embedded `_media_relays`. -/
def dirLookup (d : List (String × CachedMediaRelay)) (url : String) :
    Option CachedMediaRelay :=
  match d with
  | [] => none
  | (u, r) :: t => if u = url then some r else dirLookup t url

/-- main_app.py lines 237-249, `get_media_relay(stream_url)`: under
`_media_lock`, look the URL up; if absent, construct a `CachedMediaRelay`
with the tuning constants, call `start()` on it, and insert it; return the
relay. One atomic transition because the whole body holds the lock. -/
def get_media_relay (st : RelayDir) (url : String) : CachedMediaRelay × RelayDir :=
  match dirLookup st.entries url with
  | some r => (r, st)
  | none =>
    let r : CachedMediaRelay :=
      { rid := st.nextId, stream_url := url,
        cache_duration := WIRELESS_CACHE_DURATION,
        serve_delay := WIRELESS_SERVE_DELAY,
        started := true, clients := [], last_frame := none, running := true }
    (r, { entries := st.entries ++ [(url, r)], nextId := st.nextId + 1 })

/-- main_app.py lines 502-511, `cleanup_relays()`: under `_media_lock`, call
`stop()` on every relay in the dict (returned here as the ordered list of
stop() receivers), then clear the dict. -/
def cleanup_relays (st : RelayDir) : List CachedMediaRelay × RelayDir :=
  (st.entries.map Prod.snd, { entries := [], nextId := st.nextId })

/-- The per-relay stats record built by `waitress_info` (main_app.py
lines 411-415). -/
structure RelayStatsRec where
  clients : Nat
  has_frame : Bool
  running : Bool
deriving DecidableEq

/-- The stats record `waitress_info` builds for one relay, reading
`len(relay.clients)`, `relay.last_frame is not None` and `relay.running`
under `relay.lock`. -/
def relayStats (r : CachedMediaRelay) : RelayStatsRec :=
  { clients := r.clients.length
  , has_frame := r.last_frame.isSome
  , running := r.running }

/-- main_app.py lines 407-415: the `relay_stats` map of the `waitress_info`
endpoint — one stats record per relay in `_media_relays`, keyed by URL. -/
def waitress_info (st : RelayDir) : List (String × RelayStatsRec) :=
  st.entries.map (fun e => (e.1, relayStats e.2))

theorem dirLookup_append_self (l : List (String × CachedMediaRelay))
    (url : String) (r : CachedMediaRelay) (h : dirLookup l url = none) :
    dirLookup (l ++ [(url, r)]) url = some r := by
  induction l with
  | nil => simp [dirLookup]
  | cons e t ih =>
    by_cases he : e.1 = url
    · exact absurd h (by simp [dirLookup, he])
    · have h' : dirLookup t url = none := by
        simpa [dirLookup, he] using h
      simpa [dirLookup, he] using ih h'

theorem dirLookup_none_iff (l : List (String × CachedMediaRelay)) (url : String) :
    dirLookup l url = none ↔ url ∉ l.map Prod.fst := by
  induction l with
  | nil => simp [dirLookup]
  | cons e t ih =>
    by_cases he : e.1 = url
    · simp [dirLookup, he]
    · simp only [dirLookup, he, if_false, List.map_cons, List.mem_cons, ih]
      constructor
      · rintro h (h1 | h1)
        · exact he h1.symm
        · exact h h1
      · intro h
        exact fun h1 => h (Or.inr h1)

/- ------------------------------------------------------------------------ -/
/- main_app.py : the `stream_proxy` endpoint and its `generate()` consumer  -/
/- ------------------------------------------------------------------------ -/

/-- What the warmup loop of `generate` observes of the shared relay state at
one poll: whether `relay.last_frame is None` and the `relay.running` flag.
Indexed by poll number, since the relay's Puller thread mutates both fields
concurrently. -/
structure WarmObs where
  frameNone : Bool
  running : Bool
deriving DecidableEq

/-- main_app.py lines 346-350, the warmup wait of `generate`:

    waited = 0.0
    while relay.last_frame is None and waited < WARMUP_TIMEOUT and relay.running:
        time.sleep(0.2)
        waited += 0.2

Returns (number of sleep steps performed, final accumulated wait). The loop
adds 2/10 to `waited` each iteration and stops once `waited < WARMUP_TIMEOUT`
fails, so it performs at most 75 iterations; `fuel` bounds the recursion and
any value ≥ 76 is never exhausted. -/
def warmupLoop (obs : Nat → WarmObs) : Nat → Nat → ℚ → Nat × ℚ
  | 0, i, waited => (i, waited)
  | fuel + 1, i, waited =>
    if (obs i).frameNone = true ∧ waited < WARMUP_TIMEOUT ∧ (obs i).running = true then
      warmupLoop obs fuel (i + 1) (waited + 2/10)
    else (i, waited)

/-- One result of `client_queue.get(timeout=QUEUE_TIMEOUT)` in the read loop,
or an exception that is not caught by the inner `except` handler:
`timeout` is the queue-empty exception after `QUEUE_TIMEOUT` seconds;
`item none` is the shutdown sentinel `None`; `item (some c)` is a frame
chunk; `abort` is an exception propagating out of the loop body (e.g.
`GeneratorExit` thrown at the `yield` when the viewer disconnects). -/
inductive QRes where
  | timeout
  | item (chunk : Option Chunk)
  | abort
deriving DecidableEq

/-- What one iteration of the read loop observes: `running` is
`relay.running` read at the `while` head; `res` the queue read outcome;
`running2` is `relay.running` re-read inside the timeout handler. -/
structure LoopObs where
  running : Bool
  res : QRes
  running2 : Bool
deriving DecidableEq

/-- Why the read loop exited. `relayStopped` = `while relay.running` failed;
`sentinel` = dequeued `None`; `timeouts` = the `consecutive_timeouts` break
(reaching the limit or observing `running` false in the handler); `exn` = an
exception escaped the loop body. -/
inductive ExitReason where
  | relayStopped
  | sentinel
  | timeouts
  | exn
deriving DecidableEq

/-- Outcome of running the read loop over a trace of iteration observations:
the chunks yielded to the viewer, and the exit reason (`none` when the trace
ends with the loop still live, i.e. the generator has not terminated yet). -/
structure LoopResult where
  yields : List Chunk
  exited : Option ExitReason
deriving DecidableEq

/-- main_app.py lines 355-366, the read loop of `generate`:

    while relay.running:
        try:
            chunk = client_queue.get(timeout=QUEUE_TIMEOUT)
            consecutive_timeouts = 0
            if chunk is None:  # Shutdown signal
                break
            yield chunk
        except Exception:  # Queue timeout
            consecutive_timeouts += 1
            if consecutive_timeouts >= MAX_CONSECUTIVE_TIMEOUTS or not relay.running:
                break

`ct` is the current `consecutive_timeouts` value. -/
def consumeLoop (ct : Nat) : List LoopObs → LoopResult
  | [] => { yields := [], exited := none }
  | ev :: rest =>
    if ev.running = false then { yields := [], exited := some ExitReason.relayStopped }
    else
      match ev.res with
      | QRes.item none => { yields := [], exited := some ExitReason.sentinel }
      | QRes.item (some c) =>
        let r := consumeLoop 0 rest
        { yields := c :: r.yields, exited := r.exited }
      | QRes.timeout =>
        if ct + 1 ≥ MAX_CONSECUTIVE_TIMEOUTS ∨ ev.running2 = false then
          { yields := [], exited := some ExitReason.timeouts }
        else consumeLoop (ct + 1) rest
      | QRes.abort => { yields := [], exited := some ExitReason.exn }

/-- A read-loop iteration that dequeues the frame chunk `c` while the relay
is running. -/
def chunkEv (c : Chunk) : LoopObs :=
  { running := true, res := QRes.item (some c), running2 := true }

/-- A read-loop iteration whose queue read times out while the relay is
running (both reads of `relay.running` see true). -/
def timeoutEv : LoopObs :=
  { running := true, res := QRes.timeout, running2 := true }

/-- A read-loop iteration that dequeues the shutdown sentinel `None`;
`r2` is the (unused) handler-side read of `relay.running`. -/
def sentinelEv (r2 : Bool) : LoopObs :=
  { running := true, res := QRes.item none, running2 := r2 }

/-- Outcome of one full run of the `generate()` generator: `warmSteps` the
number of 0.2 s sleeps performed in the warmup loop, `waited` the accumulated
warmup wait, `yields` the chunks delivered to the viewer, `removes` the number
of `relay.remove_client(client_queue)` calls made, `terminated` whether the
generator has finished (warmup-failure `return`, loop exit through the
`finally` block, or exception through the `finally` block). -/
structure GenResult where
  warmSteps : Nat
  waited : ℚ
  yields : List Chunk
  removes : Nat
  terminated : Bool
deriving DecidableEq

/-- main_app.py lines 345-368, the whole `generate()` body: warmup wait, the
re-check `if relay.last_frame is None` (its value is the parameter
`recheckNone`, a fresh read of the shared field), the read loop over the
iteration trace `evs`, and the `finally: relay.remove_client(client_queue)`
that runs whenever the loop section terminates. -/
def generate (wobs : Nat → WarmObs) (recheckNone : Bool) (evs : List LoopObs) :
    GenResult :=
  let w := warmupLoop wobs 76 0 0
  if recheckNone then
    { warmSteps := w.1, waited := w.2, yields := [], removes := 1, terminated := true }
  else
    let r := consumeLoop 0 evs
    { warmSteps := w.1, waited := w.2, yields := r.yields,
      removes := if r.exited.isSome then 1 else 0,
      terminated := r.exited.isSome }

/-- The parts of the Flask `Response` built by `stream_proxy`
(main_app.py lines 370-378) that the wire contract fixes: the mimetype, the
extra headers, and the streamed body chunks. -/
structure HttpResponse where
  mimetype : String
  headers : List (String × String)
  body : List Chunk
deriving DecidableEq

/-- main_app.py lines 370-378: the `Response(generate(), mimetype=..., headers=...)`
constructed by `stream_proxy`, with the generator's yields as the body. -/
def stream_proxy (wobs : Nat → WarmObs) (recheckNone : Bool) (evs : List LoopObs) :
    HttpResponse :=
  { mimetype := "multipart/x-mixed-replace; boundary=frame"
  , headers := [("Cache-Control", "no-cache, no-store, must-revalidate"),
                ("Pragma", "no-cache"),
                ("Expires", "0")]
  , body := (generate wobs recheckNone evs).yields }

/- ------------------------------------------------------------------------ -/
/- main_app.py `track_visitor` / geomap_module/models.py `VisitorLocation`  -/
/- ------------------------------------------------------------------------ -/

/-- models.py line 22: the keyword parameters accepted by
`VisitorLocation.__init__` besides `self`. -/
def visitorInitParams : List String :=
  ["ip_address", "lat", "lon", "city", "region", "country",
   "user_agent", "page_visited"]

/-- main_app.py lines 182-198: the keyword arguments passed at the
`VisitorLocation(...)` construction in the new-visitor branch of
`track_visitor`. -/
def trackVisitorKwargs : List String :=
  ["ip_address", "lat", "lon", "city", "region", "country",
   "country_code", "continent", "zipcode", "isp", "organization",
   "timezone", "currency", "user_agent", "page_visited"]

/-- A Python exception relevant here. -/
inductive PyError where
  | typeError
deriving DecidableEq

/-- Python call semantics for `VisitorLocation(**kwargs)`: a call whose
keyword set contains a name that is not a parameter of `__init__` raises
`TypeError` (unexpected keyword argument) before the body runs; otherwise
the object is constructed. -/
def callVisitorInit (kwargs : List String) : Except PyError Unit :=
  if kwargs.all (fun k => visitorInitParams.contains k) then Except.ok ()
  else Except.error PyError.typeError

/-- SQLAlchemy session state, reduced to what the claim needs: the committed
visitor rows (by IP) and the session-pending adds. -/
structure DbSession where
  committed : List String
  pending : List String
deriving DecidableEq

/-- `db.session.rollback()`: discard pending changes, keep committed rows. -/
def rollback (s : DbSession) : DbSession :=
  { committed := s.committed, pending := [] }

/-- `db.session.add(visitor)`. -/
def addRow (s : DbSession) (ip : String) : DbSession :=
  { s with pending := ip :: s.pending }

/-- `db.session.commit()`. -/
def commit (s : DbSession) : DbSession :=
  { committed := s.pending ++ s.committed, pending := [] }

/-- Outcome of the request after the `before_request` hook: the hook's
`except` handler swallows every exception and the hook returns `None`, so
the request proceeds (`success`) either way. -/
inductive ReqOutcome where
  | success
  | failure
deriving DecidableEq

/-- main_app.py lines 176-206, the new-visitor branch of `track_visitor`
(the IP has no `VisitorLocation` row): construct `VisitorLocation` with
`trackVisitorKwargs`, then `db.session.add` + `commit`; any exception is
caught by the surrounding handler which logs and calls
`db.session.rollback()`, and the hook returns normally so the request is
still served. -/
def track_visitor_new (s : DbSession) (ip : String) : DbSession × ReqOutcome :=
  match callVisitorInit trackVisitorKwargs with
  | Except.ok _ => (commit (addRow s ip), ReqOutcome.success)
  | Except.error _ => (rollback s, ReqOutcome.success)

/- Helper lemma for the warmup loop: with a frameless, running relay the loop
runs its full course, 0.2 s at a time, up to exactly `WARMUP_TIMEOUT`. -/

theorem warmupLoop_full (obs : Nat → WarmObs)
    (h : ∀ j, (obs j).frameNone = true ∧ (obs j).running = true) :
    ∀ n fuel i, n < fuel →
      warmupLoop obs fuel i (15 - n / 5) = (i + n, 15) := by
  intro n
  induction n with
  | zero =>
    intro fuel i hf
    cases fuel with
    | zero => exact absurd hf (by omega)
    | succ fuel =>
      have hlt : ¬((15 : ℚ) - 0 / 5 < WARMUP_TIMEOUT) := by
        simp [WARMUP_TIMEOUT]
      simp only [warmupLoop]
      rw [if_neg]
      · norm_num
      · rintro ⟨-, h2, -⟩
        exact hlt h2
  | succ n ih =>
    intro fuel i hf
    cases fuel with
    | zero => exact absurd hf (by omega)
    | succ fuel =>
      have hcond : (obs i).frameNone = true ∧
          (15 : ℚ) - (n + 1) / 5 < WARMUP_TIMEOUT ∧ (obs i).running = true := by
        refine ⟨(h i).1, ?_, (h i).2⟩
        rw [WARMUP_TIMEOUT]
        have : (0 : ℚ) < (n + 1) / 5 := by positivity
        linarith
      have harith : (15 : ℚ) - ((n : ℚ) + 1) / 5 + 2 / 10 = 15 - (n : ℚ) / 5 := by
        ring
      simp only [warmupLoop]
      push_cast
      rw [if_pos hcond, harith, ih fuel (i + 1) (by omega)]
      simp only [Prod.mk.injEq]
      exact ⟨by omega, trivial⟩

/- Concrete objects used by the witness theorems. -/

/-- The upstream URL of the fish-tank camera, as built by `stream_proxy`
from the defaults `DEFAULT_STREAM_HOST`, `DEFAULT_STREAM_PORT`,
`DEFAULT_STREAM_PATH_0`. -/
def demoUrl : String := "http://10.0.0.2:8000/stream0.mjpg"

/-- The empty relay directory (state at process start). -/
def emptyDir : RelayDir := { entries := [], nextId := 0 }

/-- A sample relay object. -/
def demoRelay : CachedMediaRelay :=
  { rid := 0, stream_url := demoUrl,
    cache_duration := WIRELESS_CACHE_DURATION,
    serve_delay := WIRELESS_SERVE_DELAY,
    started := true, clients := [7], last_frame := none, running := true }

/-- A directory holding one relay. -/
def demoDir : RelayDir := { entries := [(demoUrl, demoRelay)], nextId := 1 }

/-- A geolocation environment whose lookup tiers all answer. -/
def demoGeoEnv : GeoEnv Unit :=
  { geoipLocal := fun _ => some (), apiKey := none,
    ipgeo := fun _ => some (), ipapi := fun _ => some (),
    reverseDns := fun _ => some () }

/-- A warmup observation stream in which the relay never produces a frame
and keeps running. -/
def framelessObs : Nat → WarmObs := fun _ => { frameNone := true, running := true }

/- ------------------------------------------------------------------------ -/
/- Claim theorems                                                           -/
/- ------------------------------------------------------------------------ -/

/-- If the directory already maps `url` to `r`, `get_media_relay` returns `r`
and leaves the state unchanged. -/
theorem get_media_relay_of_found (st : RelayDir) (url : String)
    (r : CachedMediaRelay) (h : dirLookup st.entries url = some r) :
    get_media_relay st url = (r, st) := by
  simp [get_media_relay, h]

/-- Claim C1: `get_media_relay` is one atomic lock-protected transition; an
existing relay is returned unchanged, a missing one is constructed with
`start()` called (`started = true`) and inserted; afterwards the URL maps to
the returned relay, the directory still has at most one entry per URL, and a
repeated call with the same URL returns the same relay object without any
further state change — creation is exactly-once even under concurrent first
calls, which the lock serializes into exactly such a sequence. -/
theorem c1_relay_directory_exactly_once (st : RelayDir) (url : String)
    (hkeys : (st.entries.map Prod.fst).Nodup) :
    (∀ r, dirLookup st.entries url = some r → get_media_relay st url = (r, st)) ∧
    (dirLookup st.entries url = none →
      (get_media_relay st url).1.started = true ∧
      (get_media_relay st url).2.entries =
        st.entries ++ [(url, (get_media_relay st url).1)]) ∧
    dirLookup (get_media_relay st url).2.entries url =
      some (get_media_relay st url).1 ∧
    ((get_media_relay st url).2.entries.map Prod.fst).Nodup ∧
    get_media_relay (get_media_relay st url).2 url =
      ((get_media_relay st url).1, (get_media_relay st url).2) := by
  cases hcase : dirLookup st.entries url with
  | some r =>
    have hget : get_media_relay st url = (r, st) :=
      get_media_relay_of_found st url r hcase
    have hfound : dirLookup (get_media_relay st url).2.entries url =
        some (get_media_relay st url).1 := by
      rw [hget]
      exact hcase
    refine ⟨?_, ?_, hfound, ?_, ?_⟩
    · intro r' hr'
      obtain rfl := Option.some.inj hr'
      exact hget
    · intro hnone
      simp at hnone
    · rw [hget]
      exact hkeys
    · exact get_media_relay_of_found _ url _ hfound
  | none =>
    have hget : get_media_relay st url =
        ({ rid := st.nextId, stream_url := url,
           cache_duration := WIRELESS_CACHE_DURATION,
           serve_delay := WIRELESS_SERVE_DELAY,
           started := true, clients := [], last_frame := none, running := true },
         { entries := st.entries ++
             [(url, { rid := st.nextId, stream_url := url,
                      cache_duration := WIRELESS_CACHE_DURATION,
                      serve_delay := WIRELESS_SERVE_DELAY,
                      started := true, clients := [], last_frame := none,
                      running := true })],
           nextId := st.nextId + 1 }) := by
      simp [get_media_relay, hcase]
    have hfound : dirLookup (get_media_relay st url).2.entries url =
        some (get_media_relay st url).1 := by
      rw [hget]
      exact dirLookup_append_self st.entries url _ hcase
    have hnotin : url ∉ st.entries.map Prod.fst :=
      (dirLookup_none_iff st.entries url).mp hcase
    refine ⟨?_, ?_, hfound, ?_, ?_⟩
    · intro r' hr'
      simp at hr'
    · intro _
      rw [hget]
      exact ⟨rfl, rfl⟩
    · rw [hget]
      simp only [List.map_append, List.map_cons, List.map_nil]
      rw [List.nodup_append]
      refine ⟨hkeys, List.nodup_singleton url, ?_⟩
      intro a ha hb
      rw [List.mem_singleton] at hb
      subst hb
      exact hnotin ha
    · exact get_media_relay_of_found _ url _ hfound

/-- Witness for C1 at the empty directory and the fish-camera URL. -/
theorem c1_relay_directory_exactly_once_witness :
    ((emptyDir.entries.map Prod.fst).Nodup) ∧
    ((∀ r, dirLookup emptyDir.entries demoUrl = some r →
        get_media_relay emptyDir demoUrl = (r, emptyDir)) ∧
     (dirLookup emptyDir.entries demoUrl = none →
       (get_media_relay emptyDir demoUrl).1.started = true ∧
       (get_media_relay emptyDir demoUrl).2.entries =
         emptyDir.entries ++ [(demoUrl, (get_media_relay emptyDir demoUrl).1)]) ∧
     dirLookup (get_media_relay emptyDir demoUrl).2.entries demoUrl =
       some (get_media_relay emptyDir demoUrl).1 ∧
     ((get_media_relay emptyDir demoUrl).2.entries.map Prod.fst).Nodup ∧
     get_media_relay (get_media_relay emptyDir demoUrl).2 demoUrl =
       ((get_media_relay emptyDir demoUrl).1,
        (get_media_relay emptyDir demoUrl).2)) :=
  ⟨by simp [emptyDir],
   c1_relay_directory_exactly_once emptyDir demoUrl (by simp [emptyDir])⟩

/-- Claim C6: `cleanup_relays` issues one `stop()` per directory entry — the
stop sequence is exactly the list of stored relays in iteration order, each
entry occurring exactly once — and leaves the directory empty, so the cleanup
path never stops an entry twice. -/
theorem c6_cleanup_stops_each_once (st : RelayDir)
    (hkeys : (st.entries.map Prod.fst).Nodup) :
    (cleanup_relays st).1 = st.entries.map Prod.snd ∧
    st.entries.Nodup ∧
    (cleanup_relays st).2.entries = [] :=
  ⟨rfl, hkeys.of_map, rfl⟩

/-- Witness for C6 at a one-entry directory. -/
theorem c6_cleanup_stops_each_once_witness :
    ((demoDir.entries.map Prod.fst).Nodup) ∧
    ((cleanup_relays demoDir).1 = demoDir.entries.map Prod.snd ∧
     demoDir.entries.Nodup ∧
     (cleanup_relays demoDir).2.entries = []) :=
  ⟨by simp [demoDir],
   c6_cleanup_stops_each_once demoDir (by simp [demoDir])⟩

/-- Claim C7: for every relay in the directory, the `waitress_info`
diagnostics report a stats record holding exactly the subscriber count
(`len(relay.clients)`), `has_frame` true iff `relay.last_frame` is not
`None`, and the `running` flag, read under the relay's lock. -/
theorem c7_waitress_info_stats (st : RelayDir) (url : String)
    (r : CachedMediaRelay) (h : (url, r) ∈ st.entries) :
    (url, relayStats r) ∈ waitress_info st ∧
    (relayStats r).clients = r.clients.length ∧
    ((relayStats r).has_frame = true ↔ r.last_frame ≠ none) ∧
    (relayStats r).running = r.running := by
  refine ⟨?_, rfl, ?_, rfl⟩
  · unfold waitress_info
    exact List.mem_map.mpr ⟨(url, r), h, rfl⟩
  · simp [relayStats, Option.isSome_iff_ne_none]

/-- Witness for C7 at the one-entry directory. -/
theorem c7_waitress_info_stats_witness :
    ((demoUrl, demoRelay) ∈ demoDir.entries) ∧
    ((demoUrl, relayStats demoRelay) ∈ waitress_info demoDir ∧
     (relayStats demoRelay).clients = demoRelay.clients.length ∧
     ((relayStats demoRelay).has_frame = true ↔ demoRelay.last_frame ≠ none) ∧
     (relayStats demoRelay).running = demoRelay.running) :=
  ⟨by simp [demoDir],
   c7_waitress_info_stats demoDir demoUrl demoRelay (by simp [demoDir])⟩

/-- Claim C9: the new-visitor branch of `track_visitor` passes keyword
arguments (among them `country_code`) that `VisitorLocation.__init__` does
not accept, so the construction raises `TypeError`; the handler catches it
and rolls the session back, leaving the committed database unchanged — no
new visitor row is committed by this path — while the request itself still
succeeds. -/
theorem c9_track_visitor_type_error (s : DbSession) (ip : String)
    (h : s.pending = []) :
    trackVisitorKwargs.contains "country_code" = true ∧
    visitorInitParams.contains "country_code" = false ∧
    callVisitorInit trackVisitorKwargs = Except.error PyError.typeError ∧
    (track_visitor_new s ip).1 = s ∧
    (track_visitor_new s ip).2 = ReqOutcome.success := by
  have hcall : callVisitorInit trackVisitorKwargs =
      Except.error PyError.typeError := by rfl
  have hroll : rollback s = s := by
    cases s with
    | mk c p =>
      have hp : p = [] := h
      subst hp
      rfl
  refine ⟨by decide, by decide, hcall, ?_, ?_⟩
  · simp [track_visitor_new, hcall, hroll]
  · simp [track_visitor_new, hcall]

/-- Witness for C9 at an empty session. -/
theorem c9_track_visitor_type_error_witness :
    ((DbSession.mk [] []).pending = []) ∧
    (trackVisitorKwargs.contains "country_code" = true ∧
     visitorInitParams.contains "country_code" = false ∧
     callVisitorInit trackVisitorKwargs = Except.error PyError.typeError ∧
     (track_visitor_new (DbSession.mk [] []) "203.0.113.5").1 = DbSession.mk [] [] ∧
     (track_visitor_new (DbSession.mk [] []) "203.0.113.5").2 = ReqOutcome.success) :=
  ⟨rfl, c9_track_visitor_type_error (DbSession.mk [] []) "203.0.113.5" rfl⟩

/-- Claim C10: `get_location` returns `None`, skipping every lookup tier, for
every IP string that is empty, equal to `"localhost"`, or beginning with one
of the prefixes `"10." "172." "192.168." "127." "169.254."` — a plain
string-prefix match, which therefore also covers public addresses such as
`172.5.0.1`. -/
theorem c10_get_location_private_guard {α : Type} (env : GeoEnv α)
    (ip : List Char)
    (h : ip = [] ∨ ip = "localhost".data ∨
      ∃ p ∈ privatePrefixList, pyStartsWith ip p = true) :
    is_private ip = true ∧ get_location env ip = none ∧
    is_private "172.5.0.1".data = true ∧
    get_location env "172.5.0.1".data = none := by
  have key : ∀ s : List Char, is_private s = true → get_location env s = none := by
    intro s hs
    simp [get_location, hs]
  have h172 : is_private "172.5.0.1".data = true := by decide
  have hpriv : is_private ip = true := by
    rcases h with h1 | h1 | ⟨p, hp, hst⟩
    · subst h1
      decide
    · subst h1
      decide
    · exact is_private_of_listed_lead p ip hp hst
  exact ⟨hpriv, key ip hpriv, h172, key _ h172⟩

/-- Witness for C10 at the empty IP string (and the constant 172.5.0.1 case). -/
theorem c10_get_location_private_guard_witness :
    (([] : List Char) = [] ∨ ([] : List Char) = "localhost".data ∨
      ∃ p ∈ privatePrefixList, pyStartsWith [] p = true) ∧
    (is_private [] = true ∧ get_location demoGeoEnv [] = none ∧
     is_private "172.5.0.1".data = true ∧
     get_location demoGeoEnv "172.5.0.1".data = none) :=
  ⟨Or.inl rfl, c10_get_location_private_guard demoGeoEnv [] (Or.inl rfl)⟩

/-- Clearing a run of consecutive timeouts below the limit leaves the read
loop running with the counter advanced. -/
theorem consumeLoop_replicate_timeout (rest : List LoopObs) :
    ∀ k ct, ct + k < MAX_CONSECUTIVE_TIMEOUTS →
      consumeLoop ct (List.replicate k timeoutEv ++ rest) = consumeLoop (ct + k) rest := by
  intro k
  induction k with
  | zero =>
    intro ct _
    simp
  | succ k ih =>
    intro ct h
    rw [List.replicate_succ, List.cons_append]
    have hlt : ¬(MAX_CONSECUTIVE_TIMEOUTS ≤ ct + 1) := by
      simp only [MAX_CONSECUTIVE_TIMEOUTS] at h ⊢
      omega
    have hstep : consumeLoop ct (timeoutEv :: (List.replicate k timeoutEv ++ rest)) =
        consumeLoop (ct + 1) (List.replicate k timeoutEv ++ rest) := by
      simp [consumeLoop, timeoutEv, hlt]
    rw [hstep, ih (ct + 1) (by omega)]
    have harr : ct + 1 + k = ct + (k + 1) := by omega
    rw [harr]

/-- Claim C2: a subscriber whose relay never produces a frame while staying
running waits in 0.2 s steps until the accumulated wait reaches
`WARMUP_TIMEOUT = 15` — exactly 75 sleep steps, so neither sooner nor
indefinitely — and on giving up it yields no chunk, terminates, and
unsubscribes its queue exactly once. -/
theorem c2_warmup_timeout (wobs : Nat → WarmObs) (evs : List LoopObs)
    (hobs : ∀ i, (wobs i).frameNone = true ∧ (wobs i).running = true) :
    (generate wobs true evs).warmSteps = 75 ∧
    (generate wobs true evs).waited = WARMUP_TIMEOUT ∧
    (generate wobs true evs).yields = [] ∧
    (generate wobs true evs).removes = 1 ∧
    (generate wobs true evs).terminated = true := by
  have hw : warmupLoop wobs 76 0 0 = (75, 15) := by
    have hrun := warmupLoop_full wobs hobs 75 76 0 (by omega)
    have h0 : (15 : ℚ) - (75 : Nat) / 5 = 0 := by norm_num
    rw [h0] at hrun
    simpa using hrun
  simp [generate, hw, WARMUP_TIMEOUT]

/-- Witness for C2 with the always-frameless observation stream. -/
theorem c2_warmup_timeout_witness :
    (∀ i, (framelessObs i).frameNone = true ∧ (framelessObs i).running = true) ∧
    ((generate framelessObs true []).warmSteps = 75 ∧
     (generate framelessObs true []).waited = WARMUP_TIMEOUT ∧
     (generate framelessObs true []).yields = [] ∧
     (generate framelessObs true []).removes = 1 ∧
     (generate framelessObs true []).terminated = true) :=
  ⟨fun _ => ⟨rfl, rfl⟩, c2_warmup_timeout framelessObs [] (fun _ => ⟨rfl, rfl⟩)⟩

/-- Claim C3: dequeuing the shutdown sentinel `None` makes the consumer exit
the read loop at once — regardless of how much trace would have followed —
yielding neither the sentinel nor any further chunk, and the generator
terminates and unsubscribes. -/
theorem c3_sentinel_prompt_exit (ct : Nat) (rest : List LoopObs) (r2 : Bool)
    (wobs : Nat → WarmObs) :
    consumeLoop ct (sentinelEv r2 :: rest) =
      { yields := [], exited := some ExitReason.sentinel } ∧
    (generate wobs false (sentinelEv r2 :: rest)).yields = [] ∧
    (generate wobs false (sentinelEv r2 :: rest)).removes = 1 ∧
    (generate wobs false (sentinelEv r2 :: rest)).terminated = true := by
  have h1 : ∀ ct' : Nat, consumeLoop ct' (sentinelEv r2 :: rest) =
      { yields := [], exited := some ExitReason.sentinel } := by
    intro ct'
    simp [consumeLoop, sentinelEv]
  refine ⟨h1 ct, ?_, ?_, ?_⟩ <;> simp [generate, h1 0]

/-- The read loop exits with the timeout reason at the tenth consecutive
timeout: runs of `MAX_CONSECUTIVE_TIMEOUTS` timeouts are not tolerated
(refuting the claim that only runs beyond `MAX_CONSECUTIVE_TIMEOUTS` kill
the consumer), while one fewer leaves the loop alive. -/
theorem c4_counterexample :
    (consumeLoop 0 (List.replicate MAX_CONSECUTIVE_TIMEOUTS timeoutEv)).exited =
      some ExitReason.timeouts ∧
    (consumeLoop 0
      (List.replicate (MAX_CONSECUTIVE_TIMEOUTS - 1) timeoutEv)).exited = none := by
  decide

/-- Claim C4 (amended): the consecutive-timeout counter resets to 0 whenever a
chunk is received; runs of up to `MAX_CONSECUTIVE_TIMEOUTS - 1` consecutive
timeouts are tolerated (the loop continues with the counter advanced); and on
the `MAX_CONSECUTIVE_TIMEOUTS`-th (10th) consecutive timeout the consumer
treats the subscriber as dead, exits, and unsubscribes its queue. -/
theorem c4_timeout_tolerance (c : Chunk) (ct k : Nat) (rest : List LoopObs)
    (wobs : Nat → WarmObs) (hk : k < MAX_CONSECUTIVE_TIMEOUTS) :
    consumeLoop ct (chunkEv c :: rest) =
      { yields := c :: (consumeLoop 0 rest).yields,
        exited := (consumeLoop 0 rest).exited } ∧
    consumeLoop 0 (List.replicate k timeoutEv ++ rest) = consumeLoop k rest ∧
    consumeLoop 0 (List.replicate MAX_CONSECUTIVE_TIMEOUTS timeoutEv ++ rest) =
      { yields := [], exited := some ExitReason.timeouts } ∧
    (generate wobs false
      (List.replicate MAX_CONSECUTIVE_TIMEOUTS timeoutEv ++ rest)).removes = 1 := by
  have hreset : consumeLoop ct (chunkEv c :: rest) =
      { yields := c :: (consumeLoop 0 rest).yields,
        exited := (consumeLoop 0 rest).exited } := by
    simp [consumeLoop, chunkEv]
  have htol : consumeLoop 0 (List.replicate k timeoutEv ++ rest) = consumeLoop k rest := by
    have := consumeLoop_replicate_timeout rest k 0 (by omega)
    simpa using this
  have hnine : consumeLoop 0
      (List.replicate (MAX_CONSECUTIVE_TIMEOUTS - 1) timeoutEv ++ (timeoutEv :: rest)) =
      consumeLoop (MAX_CONSECUTIVE_TIMEOUTS - 1) (timeoutEv :: rest) := by
    have := consumeLoop_replicate_timeout (timeoutEv :: rest)
      (MAX_CONSECUTIVE_TIMEOUTS - 1) 0 (by simp [MAX_CONSECUTIVE_TIMEOUTS])
    simpa using this
  have hsplit : List.replicate MAX_CONSECUTIVE_TIMEOUTS timeoutEv ++ rest =
      List.replicate (MAX_CONSECUTIVE_TIMEOUTS - 1) timeoutEv ++ (timeoutEv :: rest) := by
    simp [MAX_CONSECUTIVE_TIMEOUTS, List.replicate_succ']
  have hkill : consumeLoop 0 (List.replicate MAX_CONSECUTIVE_TIMEOUTS timeoutEv ++ rest) =
      { yields := [], exited := some ExitReason.timeouts } := by
    rw [hsplit, hnine]
    simp [consumeLoop, timeoutEv, MAX_CONSECUTIVE_TIMEOUTS]
  refine ⟨hreset, htol, hkill, ?_⟩
  simp [generate, hkill]

/-- Witness for C4 (amended) at a three-timeout run. -/
theorem c4_timeout_tolerance_witness :
    (3 < MAX_CONSECUTIVE_TIMEOUTS) ∧
    (consumeLoop 0 (chunkEv "j".data :: []) =
      { yields := "j".data :: (consumeLoop 0 []).yields,
        exited := (consumeLoop 0 []).exited } ∧
     consumeLoop 0 (List.replicate 3 timeoutEv ++ []) = consumeLoop 3 [] ∧
     consumeLoop 0 (List.replicate MAX_CONSECUTIVE_TIMEOUTS timeoutEv ++ []) =
       { yields := [], exited := some ExitReason.timeouts } ∧
     (generate framelessObs false
       (List.replicate MAX_CONSECUTIVE_TIMEOUTS timeoutEv ++ [])).removes = 1) :=
  ⟨by decide, c4_timeout_tolerance "j".data 0 3 [] framelessObs (by decide)⟩

/-- Claim C5: the `stream_proxy` response carries Content-Type
`multipart/x-mixed-replace; boundary=frame` and exactly the headers
`Cache-Control: no-cache, no-store, must-revalidate`, `Pragma: no-cache`,
`Expires: 0`; its body is exactly the generator's yields, and a dequeued
non-sentinel chunk is written to the viewer verbatim, unmodified, at the
head of the remaining body. -/
theorem c5_wire_contract (wobs : Nat → WarmObs) (recheckNone : Bool)
    (evs rest : List LoopObs) (c : Chunk) :
    (stream_proxy wobs recheckNone evs).mimetype =
      "multipart/x-mixed-replace; boundary=frame" ∧
    (stream_proxy wobs recheckNone evs).headers =
      [("Cache-Control", "no-cache, no-store, must-revalidate"),
       ("Pragma", "no-cache"), ("Expires", "0")] ∧
    (stream_proxy wobs recheckNone evs).body = (generate wobs recheckNone evs).yields ∧
    (stream_proxy wobs false (chunkEv c :: rest)).body =
      c :: (consumeLoop 0 rest).yields := by
  refine ⟨rfl, rfl, rfl, ?_⟩
  simp [stream_proxy, generate, consumeLoop, chunkEv]

/-- Claim C8: every terminating run of the `generate` consumer — warmup
failure, sentinel, timeout limit, relay stopped, or an exception through the
`finally` block — calls `relay.remove_client` on its queue exactly once. -/
theorem c8_unsubscribe_exactly_once (wobs : Nat → WarmObs) (recheckNone : Bool)
    (evs : List LoopObs)
    (h : (generate wobs recheckNone evs).terminated = true) :
    (generate wobs recheckNone evs).removes = 1 := by
  cases recheckNone with
  | true => simp [generate]
  | false =>
    simp only [generate, Bool.false_eq_true, if_false] at h ⊢
    simp [h]

/-- Witness for C8 at a sentinel-terminated run. -/
theorem c8_unsubscribe_exactly_once_witness :
    ((generate framelessObs false [sentinelEv true]).terminated = true) ∧
    ((generate framelessObs false [sentinelEv true]).removes = 1) :=
  ⟨by decide,
   c8_unsubscribe_exactly_once framelessObs false [sentinelEv true] (by decide)⟩

end Aquaponics
